import Mathlib

/-!
Verification of the pybookget concurrent download engine
(`pybookget/http/client.py`, `pybookget/http/download.py`,
`pybookget/config.py`) against its natural-language specification.

The Python source is shallowly embedded: exceptions become an inductive
type mirroring the httpx exception hierarchy, the tenacity retry loop
becomes a structurally recursive function, the filesystem becomes an
association list from paths to byte contents, and the asyncio
concurrency of `DownloadManager.execute` is modelled by an explicit
completion order (the order in which `asyncio.as_completed` yields
results), quantified over in the theorems.
-/

namespace PyBookGet

/-- Embedding of the Python exception classes that can escape one HTTP
attempt inside `download_file._download_with_retry`, mirroring the httpx
exception hierarchy:
`HTTPError` is the base of both `RequestError` (whose `TransportError`
subtree contains `TimeoutException` and `NetworkError`, plus other
transport errors such as `ProtocolError`/`ProxyError`) and
`HTTPStatusError` (raised by `response.raise_for_status()` for a
non-2xx response). `osError` stands for non-httpx exceptions (`OSError`
from `mkdir`/`write_bytes`). -/
inductive PyExc where
  /-- The httpx.HTTPStatusError with the given response status code. -/
  | httpStatusError (code : Nat)
  /-- The httpx.TimeoutException (subclass of TransportError). -/
  | timeoutException
  /-- The httpx.NetworkError (subclass of TransportError). -/
  | networkError
  /-- Any other httpx.TransportError (ProtocolError, ProxyError, ...). -/
  | otherTransportError
  /-- Any other httpx.RequestError (DecodingError, TooManyRedirects, ...). -/
  | otherRequestError
  /-- A non-httpx exception, e.g. OSError from filesystem operations. -/
  | osError
  deriving DecidableEq, Repr, Inhabited

/-- Python `isinstance(e, httpx.HTTPError)`: every httpx exception above
is a (transitive) subclass of `httpx.HTTPError` — including
`HTTPStatusError` — while `OSError` is not. -/
def PyExc.isHTTPError : PyExc → Bool
  | .osError => false
  | _ => true

/-- Python `isinstance(e, httpx.TimeoutException)`. -/
def PyExc.isTimeoutException : PyExc → Bool
  | .timeoutException => true
  | _ => false

/-- Python `isinstance(e, httpx.NetworkError)`. -/
def PyExc.isNetworkError : PyExc → Bool
  | .networkError => true
  | _ => false

/-- The retry condition installed by `create_retry_decorator`
(client.py lines 84-88):
`retry_if_exception_type((httpx.HTTPError, httpx.TimeoutException,
httpx.NetworkError))`, i.e. `isinstance` against that tuple of classes. -/
def retryCondition (e : PyExc) : Bool :=
  e.isHTTPError || e.isTimeoutException || e.isNetworkError

/-- Because `TimeoutException` and `NetworkError` are themselves
subclasses of `HTTPError`, the installed retry condition collapses to
membership in `httpx.HTTPError`. -/
theorem retryCondition_eq_isHTTPError (e : PyExc) :
    retryCondition e = e.isHTTPError := by
  cases e <;> rfl

/-- Python builtin `max` on two numbers (returns the first argument on
ties), written as an explicit comparison so it evaluates in the kernel. -/
def pyMax (a b : ℚ) : ℚ :=
  if b ≤ a then a else b

/-- Python builtin `min` on two numbers (returns the first argument on
ties), written as an explicit comparison so it evaluates in the kernel. -/
def pyMin (a b : ℚ) : ℚ :=
  if a ≤ b then a else b

theorem pyMax_eq_max (a b : ℚ) : pyMax a b = max a b := by
  rw [pyMax, max_def]
  rcases le_or_lt b a with h | h
  · rcases eq_or_lt_of_le h with rfl | h2
    · simp
    · rw [if_pos h, if_neg (not_le.mpr h2)]
  · rw [if_neg (not_le.mpr h), if_pos h.le]

theorem pyMin_eq_min (a b : ℚ) : pyMin a b = min a b := by
  rw [pyMin, min_def]

/-- The wait computed by tenacity `wait_exponential(multiplier, min, max)`
(with its default `exp_base = 2`) after the failed attempt numbered
`attemptNumber` (1-indexed):
`max(max(0, min), min(multiplier * exp_base ** (attempt_number - 1), max))`.
Config supplies `multiplier = retry_multiplier`, `min = retry_wait_min`,
`max = retry_wait_max` (client.py lines 79-83). -/
def waitExponential (multiplier waitMin waitMax : ℚ) (attemptNumber : Nat) : ℚ :=
  pyMax (pyMax 0 waitMin) (pyMin (multiplier * 2 ^ (attemptNumber - 1)) waitMax)

/-- One run of the tenacity retry loop produced by
`create_retry_decorator`: the result, the number of the attempt on which
the loop stopped, and the list of waits slept between attempts. -/
structure RetryRun (α : Type) where
  /-- Final outcome: the returned value, or (with `reraise=True`) the
  exception of the last attempt. -/
  result : Except PyExc α
  /-- Number of attempts actually made (the 1-indexed number of the
  final attempt). -/
  attempts : Nat
  /-- Waits slept between consecutive attempts, in order. -/
  waits : List ℚ
  deriving Repr

/-- The tenacity retry loop of `create_retry_decorator` starting at
attempt number `k`: run the attempt; on success return its value; on an
exception not matching the retry condition propagate it at once; on a
matching exception, stop and re-raise it (`reraise=True`) when
`stop_after_attempt(maxAttempts)` holds (`k ≥ maxAttempts`), otherwise
sleep the `wait_exponential` wait for attempt `k` and retry. The `fuel`
argument only makes the recursion structural: every caller passes
`fuel = maxAttempts` with `k = 1`, and since the loop stops as soon as
`k ≥ maxAttempts`, the fuel-exhaustion branch is unreachable from
`retryRun`. -/
def retryGo {α : Type} (attempt : Nat → Except PyExc α) (waitF : Nat → ℚ)
    (maxAttempts : Nat) : Nat → Nat → RetryRun α
  | k, 0 =>
    match attempt k with
    | .ok a => ⟨.ok a, k, []⟩
    | .error e => ⟨.error e, k, []⟩
  | k, fuel + 1 =>
    match attempt k with
    | .ok a => ⟨.ok a, k, []⟩
    | .error e =>
      if retryCondition e && decide (k < maxAttempts) then
        let r := retryGo attempt waitF maxAttempts (k + 1) fuel
        ⟨r.result, r.attempts, waitF k :: r.waits⟩
      else ⟨.error e, k, []⟩

/-- The full retry-wrapped call: tenacity numbers attempts from 1; the
wait function is `wait_exponential(config.retry_multiplier,
config.retry_wait_min, config.retry_wait_max)` and the stop condition is
`stop_after_attempt(config.max_retries)`. -/
def retryRun {α : Type} (attempt : Nat → Except PyExc α)
    (multiplier waitMin waitMax : ℚ) (maxAttempts : Nat) : RetryRun α :=
  retryGo attempt (waitExponential multiplier waitMin waitMax) maxAttempts 1 maxAttempts

theorem retryGo_const_error {α : Type} (e : PyExc) (he : retryCondition e = true)
    (waitF : Nat → ℚ) (maxAttempts : Nat) :
    ∀ fuel k, 1 ≤ k → k ≤ maxAttempts → maxAttempts ≤ k + fuel →
    retryGo (α := α) (fun _ => .error e) waitF maxAttempts k fuel =
      ⟨.error e, maxAttempts, (List.range (maxAttempts - k)).map (fun i => waitF (k + i))⟩ := by
  intro fuel
  induction fuel with
  | zero =>
    intro k hk1 hk hfuel
    have hkeq : k = maxAttempts := by omega
    subst hkeq
    simp [retryGo, he]
  | succ fuel ih =>
    intro k hk1 hk hfuel
    by_cases hlt : k < maxAttempts
    · have ih2 := ih (k + 1) (by omega) (by omega) (by omega)
      rw [retryGo]
      simp only [he, hlt, decide_eq_true_eq, Bool.true_and, if_true, Bool.and_self, ih2]
      have hrange : maxAttempts - k = (maxAttempts - (k + 1)) + 1 := by omega
      simp only [RetryRun.mk.injEq, true_and]
      rw [hrange, List.range_succ_eq_map]
      simp [Function.comp, Nat.add_assoc, Nat.add_comm 1]
    · have hkeq : k = maxAttempts := by omega
      subst hkeq
      simp [retryGo, he]

/-- Closed form of a retry run whose every attempt raises the same
retryable exception: the loop makes exactly `maxAttempts` attempts,
re-raises the exception, and sleeps the `wait_exponential` waits for
attempt numbers `1 .. maxAttempts - 1`. -/
theorem retryRun_const_error {α : Type} (e : PyExc) (he : retryCondition e = true)
    (multiplier waitMin waitMax : ℚ) (maxAttempts : Nat) (hmax : 1 ≤ maxAttempts) :
    retryRun (α := α) (fun _ => .error e) multiplier waitMin waitMax maxAttempts =
      ⟨.error e, maxAttempts,
        (List.range (maxAttempts - 1)).map
          (fun i => waitExponential multiplier waitMin waitMax (1 + i))⟩ := by
  exact retryGo_const_error e he _ maxAttempts maxAttempts 1 le_rfl hmax (by omega)

/-- C1 counterexample: the claim says an attempt returning a non-2xx
HTTP response (e.g. 404) is never retried and the status error is
propagated on the first attempt that produces it. In the code the retry
condition lists `httpx.HTTPError`, of which `HTTPStatusError` is a
subclass, so with the default `max_retries = 3` a call whose every
attempt raises `HTTPStatusError(404)` is attempted 3 times — not 1 —
before the error propagates. -/
theorem claim_C1_counterexample :
    (retryRun (α := Unit) (fun _ => .error (.httpStatusError 404)) 2 1 10 3).attempts = 3 ∧
    (retryRun (α := Unit) (fun _ => .error (.httpStatusError 404)) 2 1 10 3).result =
      Except.error (.httpStatusError 404) ∧
    (3 : Nat) ≠ 1 := by
  refine ⟨rfl, rfl, by decide⟩

/-- C1 (amended): for every retry configuration with attempt bound ≥ 1,
an attempt that raises a network-transport error (timeout, connection
failure) is retried up to the configured attempt bound — but so is an
attempt that raises an HTTP status error for a non-2xx response, because
`HTTPStatusError` is a subclass of `httpx.HTTPError`, which appears in
the installed retry condition. Only non-httpx exceptions are propagated
on the first attempt. In every case the last error is propagated to the
caller unmodified after the loop stops. -/
theorem claim_C1_retry_classification (m lo hi : ℚ) (maxAttempts : Nat)
    (hmax : 1 ≤ maxAttempts) (e : PyExc) :
    (retryRun (α := Unit) (fun _ => .error e) m lo hi maxAttempts).result = .error e ∧
    (retryRun (α := Unit) (fun _ => .error e) m lo hi maxAttempts).attempts =
      (if e.isHTTPError then maxAttempts else 1) := by
  by_cases hh : e.isHTTPError = true
  · have hcond : retryCondition e = true := by rw [retryCondition_eq_isHTTPError]; exact hh
    rw [retryRun_const_error e hcond m lo hi maxAttempts hmax]
    simp [hh]
  · have hcond : retryCondition e = false := by
      rw [retryCondition_eq_isHTTPError]
      exact Bool.not_eq_true _ ▸ hh
    obtain ⟨n, rfl⟩ : ∃ n, maxAttempts = n + 1 := ⟨maxAttempts - 1, by omega⟩
    simp [retryRun, retryGo, hcond, hh]

/-- Closed witness applying the C1 amended theorem at a concrete input:
a 500 response error with the default configuration is attempted exactly
3 times and then propagated. -/
theorem claim_C1_retry_classification_witness :
    (retryRun (α := Unit) (fun _ => .error (.httpStatusError 500)) 2 1 10 3).result =
      .error (.httpStatusError 500) ∧
    (retryRun (α := Unit) (fun _ => .error (.httpStatusError 500)) 2 1 10 3).attempts =
      (if (PyExc.httpStatusError 500).isHTTPError then 3 else 1) :=
  claim_C1_retry_classification 2 1 10 3 (by decide) (.httpStatusError 500)

/-- C2 counterexample: the claim says that with `waitMin=1, waitMax=10,
multiplier=2, maxAttempts=3` the wait sequence between the three
attempts is `[1, 2]`. In the code tenacity computes
`clamp(multiplier * 2^(k-1), min, max)`, so the actual sequence slept by
a run whose attempts keep failing with a retryable error is `[2, 4]`. -/
theorem claim_C2_counterexample :
    (retryRun (α := Unit) (fun _ => .error .networkError) 2 1 10 3).waits = [2, 4] ∧
    ([2, 4] : List ℚ) ≠ [1, 2] := by
  constructor
  · rw [retryRun_const_error .networkError rfl 2 1 10 3 (by norm_num)]
    norm_num [waitExponential, pyMin, pyMax, List.range_succ]
  · norm_num

/-- C2 (amended): for every retry configuration, the wait computed
before the k-th retry (k 1-indexed, counted after the first failure)
equals `max(max(0, waitMin), min(multiplier * 2^(k-1), waitMax))` —
tenacity multiplies `multiplier` by the fixed exponent base 2, rather
than raising `multiplier` to a power of `waitMin`; with
`waitMin=1, waitMax=10, multiplier=2, maxAttempts=3` the wait sequence
is `[2, 4]`. -/
theorem claim_C2_wait_schedule (m lo hi : ℚ) (n : Nat) (hn : 1 ≤ n) (e : PyExc)
    (he : retryCondition e = true) :
    (retryRun (α := Unit) (fun _ => .error e) m lo hi n).waits =
      (List.range (n - 1)).map (fun i => max (max 0 lo) (min (m * 2 ^ i) hi)) := by
  rw [retryRun_const_error e he m lo hi n hn]
  simp [waitExponential, pyMax_eq_max, pyMin_eq_min]

/-- Closed witness applying the C2 amended theorem at the default
configuration; the right-hand side evaluates to `[2, 4]`. -/
theorem claim_C2_wait_schedule_witness :
    (retryRun (α := Unit) (fun _ => .error .networkError) 2 1 10 3).waits =
      (List.range (3 - 1)).map (fun i => max (max 0 (1 : ℚ)) (min (2 * 2 ^ i) 10)) :=
  claim_C2_wait_schedule 2 1 10 3 (by decide) .networkError (by decide)

/-! Filesystem, configuration, tasks and the download manager. -/

/-- Byte contents of a file (the fully buffered `response.content`). -/
abbrev Content := List Nat

/-- The filesystem fragment the engine touches: an association list from
destination paths to file contents; `lookup` finds the most recent
write. Parent directories are not represented (`mkdir(parents=True,
exist_ok=True)` never raises for representable states and creates no
file). -/
abbrev FS := List (String × Content)

/-- Embedding of `pybookget.config.Config` (config.py), restricted to
the fields the download engine reads. Integer fields are `Int` (Python
ints), the float-valued retry waits are `ℚ`. Field defaults are the
dataclass defaults. -/
structure Config where
  page_range : Option String := none
  page_start : Option Int := none
  page_end : Option Int := none
  volume_range : Option String := none
  volume_start : Option Int := none
  volume_end : Option Int := none
  max_concurrent_tasks : Int := 16
  threads_per_task : Int := 1
  timeout : Int := 300
  max_retries : Int := 3
  retry_wait_min : ℚ := 1
  retry_wait_max : ℚ := 10
  retry_multiplier : ℚ := 2
  sleep_interval : Int := 0
  show_progress : Bool := true
  deriving Repr, Inhabited

/-- Exceptions that `Config.__post_init__` or
`DownloadManager.__init__` could raise. `configurationError` is the
error class the specification names; it appears here so the claim about
it is statable — no code path produces it. -/
inductive InitError where
  /-- Python ValueError with its message. -/
  | valueError (msg : String)
  /-- The ConfigurationError of the specification. -/
  | configurationError
  deriving DecidableEq, Repr

/-- Embedding of `Config._parse_page_range` (config.py lines 86-97):
split on a colon; exactly two parts are parsed as ints (ValueError on a
malformed int); any other number of parts is silently ignored. The
guard mirrors `if self.page_range:` — `None` and the empty string are
both falsy. -/
def Config.parsePageRangeStep (cfg : Config) : Except InitError Config :=
  match cfg.page_range with
  | none => .ok cfg
  | some s =>
    if s.isEmpty then .ok cfg
    else
      match s.splitOn ":" with
      | [a, b] =>
        match a.toInt?, b.toInt? with
        | some pa, some pb => .ok { cfg with page_start := some pa, page_end := some pb }
        | _, _ => .error (.valueError ("Invalid page range format: " ++ s))
      | _ => .ok cfg

/-- Embedding of `Config._parse_volume_range` (config.py lines 99-117):
two colon-separated parts give start and end, a single part gives a
one-volume range, malformed ints raise ValueError, other shapes are
ignored. -/
def Config.parseVolumeRangeStep (cfg : Config) : Except InitError Config :=
  match cfg.volume_range with
  | none => .ok cfg
  | some s =>
    if s.isEmpty then .ok cfg
    else
      match s.splitOn ":" with
      | [a, b] =>
        match a.toInt?, b.toInt? with
        | some va, some vb => .ok { cfg with volume_start := some va, volume_end := some vb }
        | _, _ => .error (.valueError ("Invalid volume range format: " ++ s))
      | [a] =>
        match a.toInt? with
        | some v => .ok { cfg with volume_start := some v, volume_end := some v }
        | none => .error (.valueError ("Invalid volume format: " ++ s))
      | _ => .ok cfg

/-- Embedding of `Config.__post_init__` (config.py lines 69-84): parse
the two ranges; the remaining statements (reading proxy environment
variables and creating the download directory) validate nothing and are
not represented. No retry, backoff or concurrency field is inspected. -/
def Config.postInit (cfg : Config) : Except InitError Config := do
  let cfg ← cfg.parsePageRangeStep
  cfg.parseVolumeRangeStep

/-- Embedding of the `DownloadTask` dataclass (download.py lines 22-37).
`__post_init__` only coerces `save_path` from `str` to `Path`; paths are
strings here. -/
structure DownloadTask where
  url : String
  save_path : String
  book_id : String := ""
  title : String := ""
  volume_id : String := ""
  headers : Option (List (String × String)) := none
  fallback_url : Option String := none
  deriving DecidableEq, Repr, Inhabited

/-- Embedding of the `DownloadManager` attributes set by `__init__`
(download.py lines 51-67). -/
structure DownloadManager where
  config : Config
  max_workers : Int
  show_progress : Bool
  tasks : List DownloadTask
  deriving Repr, Inhabited

/-- Embedding of `DownloadManager.__init__` (download.py lines 51-67):
`self.max_workers = max_workers or config.threads_per_task` uses Python
truthiness (absent or zero falls back to the config value), and
`self.show_progress = show_progress and config.show_progress`. The body
contains no raise statement and validates nothing; the `Except` return
type records that construction could in principle raise — this
embedding shows it never does. -/
def DownloadManager.init (config : Config) (max_workers : Option Int := none)
    (show_progress : Bool := true) : Except InitError DownloadManager :=
  .ok
    { config := config
      max_workers :=
        match max_workers with
        | some m => if m ≠ 0 then m else config.threads_per_task
        | none => config.threads_per_task
      show_progress := show_progress && config.show_progress
      tasks := [] }

/-- The environment a batch runs against: the network is a map from a
URL and a 1-indexed attempt number to the outcome of that HTTP GET
(`client.get` + `raise_for_status`, returning `response.content` on a
2xx response), and `writeFails` tells whether `dest_path.write_bytes`
raises OSError at a path. -/
structure Env where
  attemptResult : String → Nat → Except PyExc Content
  writeFails : String → Bool

/-- Result of one `download_file` call: the raised exception or the
filesystem after the write, plus the HTTP GET requests issued (one list
entry per attempt, naming the URL fetched). -/
structure FetchResult where
  result : Except PyExc FS
  requests : List String
  deriving Repr

/-- Embedding of `client.download_file` (client.py lines 93-145): return
at once when the destination already exists (file-level resumability,
no request issued); otherwise ensure the parent directory, run the
retry-wrapped GET (`_download_with_retry` buffers the whole body), and
only then write the complete content to the destination. -/
def download_file (env : Env) (cfg : Config) (fs : FS) (url dest : String) : FetchResult :=
  if (fs.lookup dest).isSome then ⟨.ok fs, []⟩
  else
    match retryRun (env.attemptResult url) cfg.retry_multiplier cfg.retry_wait_min
      cfg.retry_wait_max cfg.max_retries.toNat with
    | ⟨.error e, attempts, _⟩ => ⟨.error e, List.replicate attempts url⟩
    | ⟨.ok content, attempts, _⟩ =>
      if env.writeFails dest then ⟨.error .osError, List.replicate attempts url⟩
      else ⟨.ok ((dest, content) :: fs), List.replicate attempts url⟩

/-- Result of one `_download_single` call: the boolean the coroutine
returns, the filesystem afterwards, and every request issued. -/
structure SingleResult where
  success : Bool
  fs : FS
  requests : List String
  deriving Repr

/-- Embedding of `DownloadManager._download_single` (download.py lines
159-214): try the primary URL; on `HTTPStatusError` with code 404 and a
configured `fallback_url`, try exactly the fallback to the same
destination (success there is returned as the same `True` as a primary
success, failure is terminal); on any other exception — other status
codes, network errors after retry exhaustion, OSError — return `False`
without touching the fallback. The `sleep_interval` pause delays the
worker but changes no observable state and is not represented. -/
def DownloadManager.downloadSingle (env : Env) (cfg : Config) (fs : FS)
    (task : DownloadTask) : SingleResult :=
  match download_file env cfg fs task.url task.save_path with
  | ⟨.ok fs2, reqs⟩ => ⟨true, fs2, reqs⟩
  | ⟨.error e, reqs⟩ =>
    match e, task.fallback_url with
    | .httpStatusError 404, some fb =>
      match download_file env cfg fs fb task.save_path with
      | ⟨.ok fs2, reqs2⟩ => ⟨true, fs2, reqs ++ reqs2⟩
      | ⟨.error _, reqs2⟩ => ⟨false, fs, reqs ++ reqs2⟩
    | _, _ => ⟨false, fs, reqs⟩

/-- The per-task coroutines of `execute`, run to completion in the order
`asyncio.as_completed` yields them: `perm` lists indices into `tasks` in
completion order, and the shared filesystem is threaded through in that
order (the handler layer guarantees distinct destination paths, so this
serialization is an arbitrary representative interleaving). Returns the
booleans in completion order, the final filesystem, and all requests. -/
def runCompleted (env : Env) (cfg : Config) (tasks : List DownloadTask) :
    List Nat → FS → List Bool × FS × List String
  | [], fs => ([], fs, [])
  | j :: rest, fs =>
    let r := DownloadManager.downloadSingle env cfg fs (tasks.getD j default)
    let next := runCompleted env cfg tasks rest r.fs
    (r.success :: next.1, next.2.1, r.requests ++ next.2.2)

/-- A user callback is a Python callable that may raise: `none` models
an exception escaping the call. -/
abbrev Callback := DownloadTask → Bool → Option Unit

/-- Embedding of the result-processing loop of `DownloadManager.execute`
(download.py lines 127-146). The loop iterates over
`zip(self.tasks, asyncio.as_completed(download_tasks))`, so the `task`
bound on iteration `i` is the i-th task in submission order while
`success` is the outcome of the i-th task to complete. For each pair:
increment `successful` or `failed` from `success`, then invoke the
callback with `(task, success)`; an exception raised by the callback is
caught by the `except` clause, which increments `failed` once more.
Returns `(successful, failed, callback invocations in order)`. -/
def executeLoop (cb : Option Callback) : List (DownloadTask × Bool) → Nat × Nat × List (DownloadTask × Bool)
  | [] => (0, 0, [])
  | (t, s) :: rest =>
    let next := executeLoop cb rest
    let okBase : Nat := if s then 1 else 0
    let failBase : Nat := if s then 0 else 1
    let failExtra : Nat :=
      match cb with
      | none => 0
      | some f => match f t s with | some _ => 0 | none => 1
    let log : List (DownloadTask × Bool) :=
      match cb with
      | none => []
      | some _ => [(t, s)]
    (okBase + next.1, failBase + failExtra + next.2.1, log ++ next.2.2)

/-- Everything observable about one `execute` call: its return value
(the `successful` counter), the `failed` counter, the callback
invocations in order, the requests issued, the filesystem afterwards,
and the manager task queue after the call. -/
structure ExecResult where
  returnValue : Nat
  failed : Nat
  callbackLog : List (DownloadTask × Bool)
  requests : List String
  fs : FS
  tasksAfter : List DownloadTask
  deriving Repr

/-- Embedding of `DownloadManager.execute` (download.py lines 85-157):
an empty queue returns 0 at once; otherwise all coroutines are created,
run under the semaphore (represented by the completion order `perm`),
their results are folded by `executeLoop`, and finally
`self.tasks = []` clears the queue. Progress-bar calls render state and
are not represented. -/
def DownloadManager.execute (m : DownloadManager) (env : Env) (perm : List Nat)
    (cb : Option Callback) (fs : FS) : ExecResult :=
  if m.tasks.isEmpty then ⟨0, 0, [], [], fs, m.tasks⟩
  else
    let phase := runCompleted env m.config m.tasks perm fs
    let loop := executeLoop cb (m.tasks.zip phase.1)
    ⟨loop.1, loop.2.1, loop.2.2, phase.2.2, phase.2.1, []⟩

/-! Basic facts about `download_file` and `downloadSingle`. -/

theorem download_file_requests_eq (env : Env) (cfg : Config) (fs : FS) (url dest : String) :
    ∀ u ∈ (download_file env cfg fs url dest).requests, u = url := by
  intro u hu
  unfold download_file at hu
  split at hu
  · simp at hu
  · split at hu
    · exact List.eq_of_mem_replicate hu
    · split at hu
      · exact List.eq_of_mem_replicate hu
      · exact List.eq_of_mem_replicate hu

theorem download_file_exists_skip (env : Env) (cfg : Config) (fs : FS) (url dest : String)
    (h : (fs.lookup dest).isSome = true) :
    download_file env cfg fs url dest = ⟨.ok fs, []⟩ := by
  simp [download_file, h]

theorem downloadSingle_exists_skip (env : Env) (cfg : Config) (fs : FS) (task : DownloadTask)
    (h : (fs.lookup task.save_path).isSome = true) :
    DownloadManager.downloadSingle env cfg fs task = ⟨true, fs, []⟩ := by
  rw [DownloadManager.downloadSingle, download_file_exists_skip env cfg fs task.url task.save_path h]

/-- C4: for every environment, configuration and task whose
`fallback_url` is set, when the primary fetch fails with HTTP status
404, exactly the fallback URL is fetched next to the same destination;
the task's outcome is the fallback fetch's outcome — success
indistinguishable from a primary success, failure terminal — the
requests issued are the primary's followed by the fallback fetch's (all
naming the fallback URL), no URL beyond those two is ever fetched, and
nothing is written on a failed fallback. -/
theorem claim_C4_fallback_on_404 (env : Env) (cfg : Config) (fs : FS) (task : DownloadTask)
    (fb : String) (reqs : List String) (hfb : task.fallback_url = some fb)
    (h404 : download_file env cfg fs task.url task.save_path =
      ⟨.error (.httpStatusError 404), reqs⟩) :
    (DownloadManager.downloadSingle env cfg fs task).success =
      (download_file env cfg fs fb task.save_path).result.isOk ∧
    (DownloadManager.downloadSingle env cfg fs task).requests =
      reqs ++ (download_file env cfg fs fb task.save_path).requests ∧
    (∀ u ∈ (download_file env cfg fs fb task.save_path).requests, u = fb) ∧
    (∀ u ∈ (DownloadManager.downloadSingle env cfg fs task).requests,
      u = task.url ∨ u = fb) ∧
    ((download_file env cfg fs fb task.save_path).result.isOk = false →
      (DownloadManager.downloadSingle env cfg fs task).fs = fs) := by
  have hprim := download_file_requests_eq env cfg fs task.url task.save_path
  rw [h404] at hprim
  have hfall := download_file_requests_eq env cfg fs fb task.save_path
  rcases hfbres : download_file env cfg fs fb task.save_path with ⟨res, reqs2⟩
  rw [hfbres] at hfall
  rcases res with e | fs2
  · have hsingle : DownloadManager.downloadSingle env cfg fs task = ⟨false, fs, reqs ++ reqs2⟩ := by
      simp only [DownloadManager.downloadSingle, h404, hfb, hfbres]
    rw [hsingle]
    refine ⟨rfl, rfl, hfall, ?_, fun _ => rfl⟩
    intro u hu
    rcases List.mem_append.mp hu with h | h
    · exact Or.inl (hprim u h)
    · exact Or.inr (hfall u h)
  · have hsingle : DownloadManager.downloadSingle env cfg fs task = ⟨true, fs2, reqs ++ reqs2⟩ := by
      simp only [DownloadManager.downloadSingle, h404, hfb, hfbres]
    rw [hsingle]
    refine ⟨rfl, rfl, hfall, ?_, ?_⟩
    · intro u hu
      rcases List.mem_append.mp hu with h | h
      · exact Or.inl (hprim u h)
      · exact Or.inr (hfall u h)
    · intro h
      simp [Except.isOk, Except.toBool] at h

/-- Closed witness applying C4 at a concrete input: primary URL p
404s on every attempt (retried 3 times by the retry policy), fallback
URL f succeeds; the task outcome is success and the requests are three
GETs of p followed by one of f. -/
theorem claim_C4_fallback_on_404_witness :
    (DownloadManager.downloadSingle
      ⟨fun u _ => if u = "p" then .error (.httpStatusError 404) else .ok [7], fun _ => false⟩
      {} [] { url := "p", save_path := "d", fallback_url := some "f" }).success =
      (download_file
        ⟨fun u _ => if u = "p" then .error (.httpStatusError 404) else .ok [7], fun _ => false⟩
        {} [] "f" "d").result.isOk ∧
    (DownloadManager.downloadSingle
      ⟨fun u _ => if u = "p" then .error (.httpStatusError 404) else .ok [7], fun _ => false⟩
      {} [] { url := "p", save_path := "d", fallback_url := some "f" }).requests =
      ["p", "p", "p"] ++ (download_file
        ⟨fun u _ => if u = "p" then .error (.httpStatusError 404) else .ok [7], fun _ => false⟩
        {} [] "f" "d").requests ∧
    (∀ u ∈ (download_file
        ⟨fun u _ => if u = "p" then .error (.httpStatusError 404) else .ok [7], fun _ => false⟩
        {} [] "f" "d").requests, u = "f") ∧
    (∀ u ∈ (DownloadManager.downloadSingle
        ⟨fun u _ => if u = "p" then .error (.httpStatusError 404) else .ok [7], fun _ => false⟩
        {} [] { url := "p", save_path := "d", fallback_url := some "f" }).requests,
      u = "p" ∨ u = "f") ∧
    ((download_file
        ⟨fun u _ => if u = "p" then .error (.httpStatusError 404) else .ok [7], fun _ => false⟩
        {} [] "f" "d").result.isOk = false →
      (DownloadManager.downloadSingle
        ⟨fun u _ => if u = "p" then .error (.httpStatusError 404) else .ok [7], fun _ => false⟩
        {} [] { url := "p", save_path := "d", fallback_url := some "f" }).fs = []) :=
  claim_C4_fallback_on_404
    ⟨fun u _ => if u = "p" then .error (.httpStatusError 404) else .ok [7], fun _ => false⟩
    {} [] { url := "p", save_path := "d", fallback_url := some "f" } "f" ["p", "p", "p"]
    rfl rfl

/-- C5: for every environment, configuration and task — in particular
one with a `fallback_url` configured — a primary fetch failure whose
exception is not an HTTP 404 status error (a 500 response, a network
error after retry exhaustion, an OSError) never triggers a fetch of the
fallback URL: the outcome is failure, nothing is written, and every
request issued named only the primary URL. -/
theorem claim_C5_no_fallback_on_non404 (env : Env) (cfg : Config) (fs : FS)
    (task : DownloadTask) (e : PyExc) (reqs : List String)
    (herr : download_file env cfg fs task.url task.save_path = ⟨.error e, reqs⟩)
    (hne : e ≠ .httpStatusError 404) :
    DownloadManager.downloadSingle env cfg fs task = ⟨false, fs, reqs⟩ ∧
    ∀ u ∈ reqs, u = task.url := by
  have hprim := download_file_requests_eq env cfg fs task.url task.save_path
  rw [herr] at hprim
  refine ⟨?_, hprim⟩
  rw [DownloadManager.downloadSingle, herr]
  simp only []
  split
  all_goals first
    | rfl
    | exact absurd rfl hne

/-- Closed witness applying C5 at a concrete input: the primary URL
returns 500 on every attempt; the task fails with only the primary URL
attempted although a fallback is configured. -/
theorem claim_C5_no_fallback_on_non404_witness :
    DownloadManager.downloadSingle
      ⟨fun u _ => if u = "p" then .error (.httpStatusError 500) else .ok [7], fun _ => false⟩
      {} [] { url := "p", save_path := "d", fallback_url := some "f" } =
      ⟨false, [], ["p", "p", "p"]⟩ ∧
    ∀ u ∈ ["p", "p", "p"], u = "p" :=
  claim_C5_no_fallback_on_non404
    ⟨fun u _ => if u = "p" then .error (.httpStatusError 500) else .ok [7], fun _ => false⟩
    {} [] { url := "p", save_path := "d", fallback_url := some "f" }
    (.httpStatusError 500) ["p", "p", "p"] rfl (by decide)

/-! Facts about the result-processing loop and the completed-order run. -/

theorem executeLoop_returnValue (cb : Option Callback) (l : List (DownloadTask × Bool)) :
    (executeLoop cb l).1 = (l.map Prod.snd).count true := by
  induction l with
  | nil => rfl
  | cons p rest ih =>
    rcases p with ⟨t, s⟩
    cases s <;> simp [executeLoop, ih, List.count_cons] <;> omega

theorem executeLoop_failed_none (l : List (DownloadTask × Bool)) :
    (executeLoop none l).2.1 = (l.map Prod.snd).count false := by
  induction l with
  | nil => rfl
  | cons p rest ih =>
    rcases p with ⟨t, s⟩
    cases s <;> simp [executeLoop, ih, List.count_cons] <;> omega

theorem executeLoop_failed_some (f : Callback) (l : List (DownloadTask × Bool)) :
    (executeLoop (some f) l).2.1 =
      (l.map Prod.snd).count false + l.countP (fun p => (f p.1 p.2).isNone) := by
  induction l with
  | nil => rfl
  | cons p rest ih =>
    rcases p with ⟨t, s⟩
    rcases hf : f t s with _ | u <;>
      cases s <;> simp [executeLoop, ih, List.count_cons, List.countP_cons, hf] <;> omega

theorem executeLoop_log_none (l : List (DownloadTask × Bool)) :
    (executeLoop none l).2.2 = [] := by
  induction l with
  | nil => rfl
  | cons p rest ih =>
    rcases p with ⟨t, s⟩
    simp [executeLoop, ih]

theorem executeLoop_log_some (f : Callback) (l : List (DownloadTask × Bool)) :
    (executeLoop (some f) l).2.2 = l := by
  induction l with
  | nil => rfl
  | cons p rest ih =>
    rcases p with ⟨t, s⟩
    simp [executeLoop, ih]

theorem count_false_replicate_true (n : Nat) : (List.replicate n true).count false = 0 := by
  induction n with
  | zero => rfl
  | succ n ih => simp [List.replicate_succ, List.count_cons, ih]

theorem count_true_add_count_false (l : List Bool) :
    l.count true + l.count false = l.length := by
  induction l with
  | nil => rfl
  | cons b rest ih => cases b <;> simp [List.count_cons] <;> omega

theorem runCompleted_length (env : Env) (cfg : Config) (tasks : List DownloadTask)
    (perm : List Nat) (fs : FS) :
    (runCompleted env cfg tasks perm fs).1.length = perm.length := by
  induction perm generalizing fs with
  | nil => rfl
  | cons j rest ih => simp [runCompleted, ih]

theorem List.getD_mem_of_lt {α : Type} [Inhabited α] (l : List α) (j : Nat)
    (h : j < l.length) : l.getD j default ∈ l := by
  rw [show l.getD j default = l.get ⟨j, h⟩ by
    simp [List.getD_eq_getElem?_getD, List.getElem?_eq_getElem h]]
  exact l.get_mem j h

theorem runCompleted_all_skip (env : Env) (cfg : Config) (tasks : List DownloadTask) (fs : FS)
    (hall : ∀ t ∈ tasks, (fs.lookup t.save_path).isSome = true) :
    ∀ perm : List Nat, (∀ j ∈ perm, j < tasks.length) →
    runCompleted env cfg tasks perm fs = (List.replicate perm.length true, fs, []) := by
  intro perm
  induction perm with
  | nil => intro _; rfl
  | cons j rest ih =>
    intro hj
    have hjlt : j < tasks.length := hj j (List.mem_cons_self j rest)
    have hmem : tasks.getD j default ∈ tasks := List.getD_mem_of_lt tasks j hjlt
    have hskip := downloadSingle_exists_skip env cfg fs (tasks.getD j default) (hall _ hmem)
    rw [runCompleted, hskip]
    rw [ih (fun i hi => hj i (List.mem_cons_of_mem j hi))]
    rfl

/-- C6: for every batch whose every task's destination already exists on
the filesystem, each individual fetch returns success immediately
without issuing any network request and without modifying the
filesystem, and a whole `execute()` run over such a batch issues no
request, leaves the filesystem untouched, and reports every task as a
success (`returnValue` is the batch size and the failure counter is
zero). -/
theorem claim_C6_idempotent_rerun (m : DownloadManager) (env : Env) (perm : List Nat) (fs : FS)
    (hall : ∀ t ∈ m.tasks, (fs.lookup t.save_path).isSome = true)
    (hperm : perm.Perm (List.range m.tasks.length)) :
    (∀ t ∈ m.tasks, DownloadManager.downloadSingle env m.config fs t = ⟨true, fs, []⟩) ∧
    (m.execute env perm none fs).returnValue = m.tasks.length ∧
    (m.execute env perm none fs).failed = 0 ∧
    (m.execute env perm none fs).requests = [] ∧
    (m.execute env perm none fs).fs = fs := by
  have hlen : perm.length = m.tasks.length := by
    have := hperm.length_eq
    simpa using this
  have hjlt : ∀ j ∈ perm, j < m.tasks.length := by
    intro j hj
    have := hperm.mem_iff.mp hj
    simpa using this
  refine ⟨fun t ht => downloadSingle_exists_skip env m.config fs t (hall t ht), ?_⟩
  have hphase := runCompleted_all_skip env m.config m.tasks fs hall perm hjlt
  by_cases hemp : m.tasks.isEmpty
  · have htasks : m.tasks = [] := List.isEmpty_iff.mp hemp
    rw [DownloadManager.execute, if_pos hemp]
    simp [htasks]
  · rw [DownloadManager.execute, if_neg hemp]
    rw [hphase]
    have hzip : (m.tasks.zip (List.replicate perm.length true)).map Prod.snd =
        List.replicate perm.length true :=
      List.map_snd_zip m.tasks (List.replicate perm.length true) (by simp [hlen])
    refine ⟨?_, ?_, rfl, rfl⟩
    · show (executeLoop none (m.tasks.zip (List.replicate perm.length true))).1 = m.tasks.length
      rw [executeLoop_returnValue, hzip]
      simp [hlen]
    · show (executeLoop none (m.tasks.zip (List.replicate perm.length true))).2.1 = 0
      rw [executeLoop_failed_none, hzip, count_false_replicate_true]

/-- Closed witness applying C6 at a concrete input: one task whose
destination is already present; the run issues no request, changes
nothing, and returns 1. -/
theorem claim_C6_idempotent_rerun_witness :
    (∀ t ∈ [{ url := "b", save_path := "pb" : DownloadTask }],
      DownloadManager.downloadSingle ⟨fun _ _ => .error .networkError, fun _ => false⟩ {}
        [("pb", [1])] t = ⟨true, [("pb", [1])], []⟩) ∧
    ((⟨{}, 1, true, [{ url := "b", save_path := "pb" }]⟩ : DownloadManager).execute
      ⟨fun _ _ => .error .networkError, fun _ => false⟩ [0] none [("pb", [1])]).returnValue =
      ([{ url := "b", save_path := "pb" : DownloadTask }]).length ∧
    ((⟨{}, 1, true, [{ url := "b", save_path := "pb" }]⟩ : DownloadManager).execute
      ⟨fun _ _ => .error .networkError, fun _ => false⟩ [0] none [("pb", [1])]).failed = 0 ∧
    ((⟨{}, 1, true, [{ url := "b", save_path := "pb" }]⟩ : DownloadManager).execute
      ⟨fun _ _ => .error .networkError, fun _ => false⟩ [0] none [("pb", [1])]).requests = [] ∧
    ((⟨{}, 1, true, [{ url := "b", save_path := "pb" }]⟩ : DownloadManager).execute
      ⟨fun _ _ => .error .networkError, fun _ => false⟩ [0] none [("pb", [1])]).fs =
      [("pb", [1])] :=
  claim_C6_idempotent_rerun ⟨{}, 1, true, [{ url := "b", save_path := "pb" }]⟩
    ⟨fun _ _ => .error .networkError, fun _ => false⟩ [0] [("pb", [1])]
    (by intro t ht; simp at ht; subst ht; rfl)
    (by rw [show List.range ([{ url := "b", save_path := "pb" : DownloadTask }]).length = [0]
          from rfl])

/-- C7: for every batch of N tasks and every completion order,
`execute()` drives every one of the N tasks to a terminal outcome (the
completed-order run yields exactly N outcomes), the returned value
equals the number of success outcomes, the returned value plus the
failure counter equals N (assuming the supplied callback, if any, does
not raise), and the manager's internal task queue is empty after the
call — even when some or all tasks failed. -/
theorem claim_C7_completion_totality (m : DownloadManager) (env : Env) (perm : List Nat)
    (cb : Option Callback) (fs : FS)
    (hperm : perm.Perm (List.range m.tasks.length))
    (hcb : ∀ f, cb = some f → ∀ t s, (f t s).isSome = true) :
    (runCompleted env m.config m.tasks perm fs).1.length = m.tasks.length ∧
    (m.execute env perm cb fs).returnValue =
      (runCompleted env m.config m.tasks perm fs).1.count true ∧
    (m.execute env perm cb fs).returnValue + (m.execute env perm cb fs).failed =
      m.tasks.length ∧
    (m.execute env perm cb fs).tasksAfter = [] := by
  have hlen : perm.length = m.tasks.length := by
    have := hperm.length_eq
    simpa using this
  have houtlen : (runCompleted env m.config m.tasks perm fs).1.length = m.tasks.length := by
    rw [runCompleted_length, hlen]
  refine ⟨houtlen, ?_⟩
  by_cases hemp : m.tasks.isEmpty
  · have htasks : m.tasks = [] := List.isEmpty_iff.mp hemp
    have hperm0 : perm = [] := by
      have : perm.Perm [] := by simpa [htasks] using hperm
      exact this.eq_nil
    rw [DownloadManager.execute, if_pos hemp]
    simp [htasks, hperm0, runCompleted]
  · rw [DownloadManager.execute, if_neg hemp]
    have hzip : (m.tasks.zip (runCompleted env m.config m.tasks perm fs).1).map Prod.snd =
        (runCompleted env m.config m.tasks perm fs).1 :=
      List.map_snd_zip m.tasks _ (by rw [houtlen])
    refine ⟨?_, ?_, rfl⟩
    · show (executeLoop cb (m.tasks.zip (runCompleted env m.config m.tasks perm fs).1)).1 = _
      rw [executeLoop_returnValue, hzip]
    · show (executeLoop cb (m.tasks.zip (runCompleted env m.config m.tasks perm fs).1)).1 +
        (executeLoop cb (m.tasks.zip (runCompleted env m.config m.tasks perm fs).1)).2.1 =
        m.tasks.length
      rcases cb with _ | f
      · rw [executeLoop_returnValue, executeLoop_failed_none, hzip,
          count_true_add_count_false, houtlen]
      · rw [executeLoop_returnValue, executeLoop_failed_some, hzip]
        have hzero : (m.tasks.zip (runCompleted env m.config m.tasks perm fs).1).countP
            (fun p => (f p.1 p.2).isNone) = 0 := by
          rw [List.countP_eq_zero]
          intro p _
          have := hcb f rfl p.1 p.2
          rcases hv : f p.1 p.2 with _ | u
          · rw [hv] at this
            simp at this
          · simp [hv]
        rw [hzero, Nat.add_zero, count_true_add_count_false, houtlen]

/-- Closed witness applying C7 at a concrete input: a two-task batch in
which the first task fails with a 404 and the second succeeds, completed
in reverse order with no callback; `execute` returns 1, the counters sum
to 2, and the queue is empty afterwards. -/
theorem claim_C7_completion_totality_witness :
    (runCompleted
      ⟨fun u _ => if u = "a" then .error (.httpStatusError 404) else .ok [1], fun _ => false⟩
      {} [{ url := "a", save_path := "pa" }, { url := "b", save_path := "pb" }] [1, 0] []).1.length =
      ([{ url := "a", save_path := "pa" }, { url := "b", save_path := "pb" : DownloadTask }]).length ∧
    ((⟨{}, 1, true, [{ url := "a", save_path := "pa" }, { url := "b", save_path := "pb" }]⟩ :
        DownloadManager).execute
      ⟨fun u _ => if u = "a" then .error (.httpStatusError 404) else .ok [1], fun _ => false⟩
      [1, 0] none []).returnValue =
      (runCompleted
        ⟨fun u _ => if u = "a" then .error (.httpStatusError 404) else .ok [1], fun _ => false⟩
        {} [{ url := "a", save_path := "pa" }, { url := "b", save_path := "pb" }] [1, 0] []).1.count
        true ∧
    ((⟨{}, 1, true, [{ url := "a", save_path := "pa" }, { url := "b", save_path := "pb" }]⟩ :
        DownloadManager).execute
      ⟨fun u _ => if u = "a" then .error (.httpStatusError 404) else .ok [1], fun _ => false⟩
      [1, 0] none []).returnValue +
      ((⟨{}, 1, true, [{ url := "a", save_path := "pa" }, { url := "b", save_path := "pb" }]⟩ :
          DownloadManager).execute
        ⟨fun u _ => if u = "a" then .error (.httpStatusError 404) else .ok [1], fun _ => false⟩
        [1, 0] none []).failed =
      ([{ url := "a", save_path := "pa" }, { url := "b", save_path := "pb" : DownloadTask }]).length ∧
    ((⟨{}, 1, true, [{ url := "a", save_path := "pa" }, { url := "b", save_path := "pb" }]⟩ :
        DownloadManager).execute
      ⟨fun u _ => if u = "a" then .error (.httpStatusError 404) else .ok [1], fun _ => false⟩
      [1, 0] none []).tasksAfter = [] :=
  claim_C7_completion_totality
    ⟨{}, 1, true, [{ url := "a", save_path := "pa" }, { url := "b", save_path := "pb" }]⟩
    ⟨fun u _ => if u = "a" then .error (.httpStatusError 404) else .ok [1], fun _ => false⟩
    [1, 0] none []
    (by rw [show List.range ([{ url := "a", save_path := "pa" },
        { url := "b", save_path := "pb" : DownloadTask }]).length = [0, 1] from rfl]
        exact (List.Perm.swap 1 0 []).symm)
    (fun f h => nomatch h)

/-- C10: for every batch, completion order and callback that may raise,
the loop in `execute()` catches a callback exception and continues (the
callback is still invoked for every pair, and `execute` completes with
its normal bookkeeping), but the `except` clause increments the failure
counter once per raising invocation on top of the counter already
updated for the task, so the reported `returnValue + failed` equals the
batch size plus the number of raising invocations — which exceeds N as
soon as one invocation raises. -/
theorem claim_C10_callback_exception (m : DownloadManager) (env : Env) (perm : List Nat)
    (f : Callback) (fs : FS)
    (hperm : perm.Perm (List.range m.tasks.length)) :
    (m.execute env perm (some f) fs).returnValue =
      ((m.tasks.zip (runCompleted env m.config m.tasks perm fs).1).map Prod.snd).count true ∧
    (m.execute env perm (some f) fs).failed =
      ((m.tasks.zip (runCompleted env m.config m.tasks perm fs).1).map Prod.snd).count false +
      (m.tasks.zip (runCompleted env m.config m.tasks perm fs).1).countP
        (fun p => (f p.1 p.2).isNone) ∧
    (m.execute env perm (some f) fs).returnValue + (m.execute env perm (some f) fs).failed =
      m.tasks.length +
      (m.tasks.zip (runCompleted env m.config m.tasks perm fs).1).countP
        (fun p => (f p.1 p.2).isNone) ∧
    (m.execute env perm (some f) fs).callbackLog =
      m.tasks.zip (runCompleted env m.config m.tasks perm fs).1 := by
  have hlen : perm.length = m.tasks.length := by
    have := hperm.length_eq
    simpa using this
  have houtlen : (runCompleted env m.config m.tasks perm fs).1.length = m.tasks.length := by
    rw [runCompleted_length, hlen]
  by_cases hemp : m.tasks.isEmpty
  · have htasks : m.tasks = [] := List.isEmpty_iff.mp hemp
    rw [DownloadManager.execute, if_pos hemp]
    simp [htasks]
  · rw [DownloadManager.execute, if_neg hemp]
    have hzip : (m.tasks.zip (runCompleted env m.config m.tasks perm fs).1).map Prod.snd =
        (runCompleted env m.config m.tasks perm fs).1 :=
      List.map_snd_zip m.tasks _ (by rw [houtlen])
    refine ⟨?_, ?_, ?_, ?_⟩
    · exact executeLoop_returnValue _ _
    · exact executeLoop_failed_some _ _
    · show (executeLoop (some f) (m.tasks.zip (runCompleted env m.config m.tasks perm fs).1)).1 +
        (executeLoop (some f) (m.tasks.zip (runCompleted env m.config m.tasks perm fs).1)).2.1 = _
      rw [executeLoop_returnValue, executeLoop_failed_some, hzip]
      rw [← Nat.add_assoc, count_true_add_count_false, houtlen]
    · exact executeLoop_log_some _ _

/-- Closed witness applying C10 at a concrete input: a one-task batch
whose download succeeds while the callback always raises; `execute`
reports 1 success and 1 failure, so the totals sum to 2 for a batch of
size 1. -/
theorem claim_C10_callback_exception_witness :
    ((⟨{}, 1, true, [{ url := "b", save_path := "pb" }]⟩ : DownloadManager).execute
      ⟨fun _ _ => .ok [1], fun _ => false⟩ [0] (some (fun _ _ => none)) []).returnValue =
      (([{ url := "b", save_path := "pb" : DownloadTask }].zip
        (runCompleted ⟨fun _ _ => .ok [1], fun _ => false⟩ {}
          [{ url := "b", save_path := "pb" }] [0] []).1).map Prod.snd).count true ∧
    ((⟨{}, 1, true, [{ url := "b", save_path := "pb" }]⟩ : DownloadManager).execute
      ⟨fun _ _ => .ok [1], fun _ => false⟩ [0] (some (fun _ _ => none)) []).failed =
      (([{ url := "b", save_path := "pb" : DownloadTask }].zip
        (runCompleted ⟨fun _ _ => .ok [1], fun _ => false⟩ {}
          [{ url := "b", save_path := "pb" }] [0] []).1).map Prod.snd).count false +
      ([{ url := "b", save_path := "pb" : DownloadTask }].zip
        (runCompleted ⟨fun _ _ => .ok [1], fun _ => false⟩ {}
          [{ url := "b", save_path := "pb" }] [0] []).1).countP
        (fun p => ((fun _ _ => (none : Option Unit)) p.1 p.2).isNone) ∧
    ((⟨{}, 1, true, [{ url := "b", save_path := "pb" }]⟩ : DownloadManager).execute
      ⟨fun _ _ => .ok [1], fun _ => false⟩ [0] (some (fun _ _ => none)) []).returnValue +
      ((⟨{}, 1, true, [{ url := "b", save_path := "pb" }]⟩ : DownloadManager).execute
        ⟨fun _ _ => .ok [1], fun _ => false⟩ [0] (some (fun _ _ => none)) []).failed =
      ([{ url := "b", save_path := "pb" : DownloadTask }]).length +
      ([{ url := "b", save_path := "pb" : DownloadTask }].zip
        (runCompleted ⟨fun _ _ => .ok [1], fun _ => false⟩ {}
          [{ url := "b", save_path := "pb" }] [0] []).1).countP
        (fun p => ((fun _ _ => (none : Option Unit)) p.1 p.2).isNone) ∧
    ((⟨{}, 1, true, [{ url := "b", save_path := "pb" }]⟩ : DownloadManager).execute
      ⟨fun _ _ => .ok [1], fun _ => false⟩ [0] (some (fun _ _ => none)) []).callbackLog =
      [{ url := "b", save_path := "pb" : DownloadTask }].zip
        (runCompleted ⟨fun _ _ => .ok [1], fun _ => false⟩ {}
          [{ url := "b", save_path := "pb" }] [0] []).1 :=
  claim_C10_callback_exception ⟨{}, 1, true, [{ url := "b", save_path := "pb" }]⟩
    ⟨fun _ _ => .ok [1], fun _ => false⟩ [0] (fun _ _ => none) []
    (by rw [show List.range ([{ url := "b", save_path := "pb" : DownloadTask }]).length = [0]
          from rfl])

/-! Claim C3 concerns the pairing between a task and the outcome its
callback receives. The following concrete batch exhibits the
`zip(self.tasks, asyncio.as_completed(...))` mispairing. -/

/-- Environment of the C3 run: URL a always returns 404, URL b
succeeds. -/
def envMispaired : Env :=
  ⟨fun u _ => if u = "a" then .error (.httpStatusError 404) else .ok [1], fun _ => false⟩

/-- Task whose primary URL 404s and which has no fallback: its own
outcome is failure. -/
def taskA : DownloadTask := { url := "a", save_path := "pa" }

/-- Task whose download succeeds: its own outcome is success. -/
def taskB : DownloadTask := { url := "b", save_path := "pb" }

/-- Manager holding the two-task batch of the C3 run. -/
def mgrMispaired : DownloadManager := ⟨{}, 1, true, [taskA, taskB]⟩

/-- C3: the claim requires each task's callback invocation to carry that
task's own outcome. Because `execute` iterates
`zip(self.tasks, asyncio.as_completed(download_tasks))`, the task bound
on each iteration comes from submission order while the awaited result
comes from completion order. In the batch `[taskA, taskB]` where taskA
fails (404, no fallback) and taskB succeeds, and taskB completes first,
the callback is invoked with `(taskA, True)` and `(taskB, False)` —
each task receives the other task's outcome, contradicting the claim
(and the intent documented for the callback parameter). -/
theorem claim_C3_callback_mispairing :
    (DownloadManager.downloadSingle envMispaired {} [] taskA).success = false ∧
    (DownloadManager.downloadSingle envMispaired {} [] taskB).success = true ∧
    (mgrMispaired.execute envMispaired [1, 0] (some (fun _ _ => some ())) []).callbackLog =
      [(taskA, true), (taskB, false)] := by
  refine ⟨rfl, rfl, rfl⟩

/-! Claim C8 concerns validation at construction time. -/

/-- Configuration with an invalid concurrency limit and invalid retry
parameters: `threads_per_task = 0`, `max_retries = -1`, and a negative
backoff window. -/
def invalidConfig : Config :=
  { threads_per_task := 0, max_retries := -1, retry_wait_min := -5, retry_wait_max := -1 }

/-- C8 counterexample: the claim says constructing the Download Manager
over an invalid concurrency limit (< 1) or invalid retry/backoff
parameters raises ConfigurationError at construction time. Neither
`Config.__post_init__` nor `DownloadManager.__init__` inspects those
fields: post-init accepts `invalidConfig` unchanged, and the manager is
constructed with `max_workers = -1 < 1` without any error. -/
theorem claim_C8_counterexample :
    Config.postInit invalidConfig = .ok invalidConfig ∧
    DownloadManager.init invalidConfig (some (-1)) true =
      .ok ⟨invalidConfig, -1, true, []⟩ ∧
    ((-1 : Int) < 1) := by
  refine ⟨rfl, rfl, by decide⟩

/-- C8 (amended): construction never validates the concurrency limit or
the retry/backoff parameters and never raises for them:
`Config.__post_init__` only parses the optional page/volume range
strings (with no range configured it accepts any field values
unchanged), and `DownloadManager.__init__` succeeds for every
configuration and every `max_workers` argument; invalid values surface,
if at all, only later during `execute()`. -/
theorem claim_C8_no_construction_validation (cfg : Config) (mw : Option Int) (sp : Bool)
    (hp : cfg.page_range = none) (hv : cfg.volume_range = none) :
    Config.postInit cfg = .ok cfg ∧
    ∀ e, DownloadManager.init cfg mw sp ≠ .error e := by
  constructor
  · have h1 : cfg.parsePageRangeStep = .ok cfg := by rw [Config.parsePageRangeStep, hp]
    have h2 : cfg.parseVolumeRangeStep = .ok cfg := by rw [Config.parseVolumeRangeStep, hv]
    rw [Config.postInit, h1]
    show cfg.parseVolumeRangeStep = .ok cfg
    exact h2
  · intro e h
    simp [DownloadManager.init] at h

/-- Closed witness applying C8 amended at a concrete input: a
configuration with `threads_per_task = -3` passes post-init and manager
construction without error. -/
theorem claim_C8_no_construction_validation_witness :
    Config.postInit { threads_per_task := -3 } = .ok { threads_per_task := -3 } ∧
    ∀ e, DownloadManager.init { threads_per_task := -3 } none true ≠ .error e :=
  claim_C8_no_construction_validation { threads_per_task := -3 } none true rfl rfl

/-! Claim C9 concerns the write discipline of `download_file` at the
granularity of the individual filesystem operations of its final
`dest_path.write_bytes(content)`. -/

/-- Destination states observed while the chunks of a write are applied
in order: after each chunk the file holds everything written so far. -/
def writeStates (acc : Content) : List Content → List (Option Content)
  | [] => []
  | c :: rest => some (acc ++ c) :: writeStates (acc ++ c) rest

/-- Observable states of the destination path during one `download_file`
call (client.py lines 119-145), at filesystem-operation granularity.
`initial` is the file already at the destination, `fetchErr` the
exception (if any) of the retry-wrapped GET; when the GET succeeds the
fully buffered body is `chunks.join`. `Path.write_bytes` is
`open('wb')` — which creates the file empty — followed by a write of
the buffer; POSIX guarantees no atomicity for writes to a regular file,
so the write is modelled as an arbitrary split of the body into
sequentially applied chunks, `failAfter j` marking an OSError after `j`
chunks (the function has no cleanup handler and no temp-file-plus-
rename, so whatever was written stays). The returned list holds every
state a concurrent reader of the destination path can observe, in
order. -/
def downloadFileObservable (initial : Option Content) (fetchErr : Option PyExc)
    (chunks : List Content) (failAfter : Option Nat) : List (Option Content) :=
  match initial with
  | some c => [some c]
  | none =>
    match fetchErr with
    | some _ => [none]
    | none =>
      let written := match failAfter with | none => chunks | some j => chunks.take j
      none :: some [] :: writeStates [] written

/-- C9 counterexample: the claim says every observable state of the
destination holds either no file or the full correct content. With an
initially absent destination, a successful fetch of the two-byte body
`[1, 2]` written as two one-byte chunks exposes the intermediate state
`some [1]` — a partial file — and additionally the empty file `some []`
right after `open('wb')`; moreover a write failing after one chunk
terminates with the partial file `some [1]` still present although the
call raises. -/
theorem claim_C9_counterexample :
    some [1] ∈ downloadFileObservable none none [[1], [2]] none ∧
    ([1] : Content) ≠ [] ∧ ([1] : Content) ≠ [[1], [2]].flatten ∧
    (downloadFileObservable none none [[1], [2]] (some 1)).getLast? = some (some [1]) := by
  refine ⟨by decide, by decide, by decide, by decide⟩

theorem writeStates_mem_shape (full : List Content) :
    ∀ (l : List Content) (acc : Content) (k : Nat),
      acc = (full.take k).flatten → (∀ i : Nat, l[i]? = full[k + i]?) →
      ∀ s ∈ writeStates acc l, ∃ j, s = some ((full.take j).flatten) := by
  intro l
  induction l with
  | nil => intro acc k _ _ s hs; simp [writeStates] at hs
  | cons c rest ih =>
    intro acc k hacc hl s hs
    have hck : full[k]? = some c := by
      have := hl 0
      simpa using this.symm
    have hstep : acc ++ c = (full.take (k + 1)).flatten := by
      rw [hacc, List.take_succ, hck]
      simp
    rcases List.mem_cons.mp hs with hs | hs
    · exact ⟨k + 1, by rw [hs, hstep]⟩
    · exact ih (acc ++ c) (k + 1) hstep
        (fun i => by have := hl (i + 1); simpa [Nat.add_assoc, Nat.add_comm 1] using this)
        s hs

theorem writeStates_getLast (l : List Content) : ∀ acc : Content, l ≠ [] →
    (writeStates acc l).getLast? = some (some (acc ++ l.flatten)) := by
  induction l with
  | nil => intro acc h; exact absurd rfl h
  | cons c rest ih =>
    intro acc _
    rcases hr : rest with _ | ⟨d, rest2⟩
    · simp [writeStates]
    · subst hr
      have h2 : writeStates (acc ++ c) (d :: rest2) =
          some (acc ++ c ++ d) :: writeStates (acc ++ c ++ d) rest2 := rfl
      rw [show writeStates acc (c :: d :: rest2) =
          some (acc ++ c) :: writeStates (acc ++ c) (d :: rest2) from rfl]
      rw [h2, List.getLast?_cons_cons, ← h2, ih (acc ++ c) (by simp)]
      simp

/-- C9 (amended): the destination is written only after the complete
response body has been buffered: when the retry-wrapped GET raises (a
network or status error), no write has begun and the destination stays
absent; every state a concurrent reader can observe is the absent file,
the empty file just created by `open('wb')`, or the bytes of some first
chunks of the fully buffered body, in order; and when no filesystem
error interrupts the write, the final observable state is the complete
content. The write is a plain create-then-write — not a
temp-file-plus-rename — so the intermediate states (and, after a write
failure, a partial file) are genuinely observable, which is what the
original claim rules out. -/
theorem claim_C9_buffered_not_atomic (chunks : List Content) (failAfter : Option Nat) :
    (∀ e, downloadFileObservable none (some e) chunks failAfter = [none]) ∧
    ((downloadFileObservable none none chunks none).getLast? =
      some (some chunks.flatten)) ∧
    (∀ s ∈ downloadFileObservable none none chunks failAfter,
      s = none ∨ ∃ j, s = some ((chunks.take j).flatten)) := by
  refine ⟨fun e => rfl, ?_, ?_⟩
  · show (none :: some [] :: writeStates [] chunks).getLast? = some (some chunks.flatten)
    rcases hc : chunks with _ | ⟨c, rest⟩
    · rfl
    · have h2 : writeStates ([] : Content) (c :: rest) =
          some ([] ++ c) :: writeStates ([] ++ c) rest := rfl
      rw [List.getLast?_cons_cons, h2, List.getLast?_cons_cons, ← h2,
        writeStates_getLast (c :: rest) [] (by simp)]
      simp
  · intro s hs
    rcases failAfter with _ | j
    · have hs2 : s ∈ (none : Option Content) :: some [] :: writeStates [] chunks := hs
      rcases List.mem_cons.mp hs2 with h | h
      · exact Or.inl h
      rcases List.mem_cons.mp h with h | h
      · exact Or.inr ⟨0, by rw [h]; rfl⟩
      · rcases writeStates_mem_shape chunks chunks [] 0 (by simp) (fun i => by simp) s h
          with ⟨i, hi⟩
        exact Or.inr ⟨i, hi⟩
    · have hs2 : s ∈ (none : Option Content) :: some [] :: writeStates [] (chunks.take j) := hs
      rcases List.mem_cons.mp hs2 with h | h
      · exact Or.inl h
      rcases List.mem_cons.mp h with h | h
      · exact Or.inr ⟨0, by rw [h]; rfl⟩
      · rcases writeStates_mem_shape (chunks.take j) (chunks.take j) [] 0 (by simp)
          (fun i => by simp) s h with ⟨i, hi⟩
        exact Or.inr ⟨i ⊓ j, by rw [hi, List.take_take]⟩

end PyBookGet
